import Mathlib

/-!
Verification of the ICD diagnosis-code API core.

Shallow embedding of the query/filter/pagination/validation engine of the
`diagnosis` Django app: the data model (`diagnosis/models.py`), the
diagnosis-code list endpoint (`diagnosis/views.py`,
`diagnosis_code_list_create` with `DiagnosisCodePagination`), the serializer
cross-field validation (`diagnosis/serializers.py`,
`DiagnosisCodeSerializer.validate`), the category delete protection
(`diagnosis_category_detail`, DELETE branch, with `on_delete=PROTECT`),
and the CSV import loop (`management/commands/import_icd.py`).

Strings model Python strings; primary keys are modelled as strings (only
equality on them is ever used); query parameters are `Option String`
(`none` = parameter absent from the request).
-/

deriving instance DecidableEq for Except

namespace ICD

/-- Model of `DiagnosisCategory` from `diagnosis/models.py`: `code`, `title`,
`icd_version` (timestamps omitted — never read by the code under study). -/
structure DiagnosisCategory where
  id : String
  code : String
  title : String
  icd_version : String
  deriving DecidableEq, Repr

/-- Model of `DiagnosisCode` from `diagnosis/models.py`: nullable `category` foreign
key (held as the referenced category's pk), `diagnosis_code`, `full_code`,
`abbreviated_description`, `full_description`, `icd_version`, `is_active`,
`valid_from` / `valid_to` (timestamps omitted). -/
structure DiagnosisCode where
  id : String
  category : Option String
  diagnosis_code : String
  full_code : String
  abbreviated_description : String
  full_description : String
  icd_version : String
  is_active : Bool
  valid_from : Option String
  valid_to : Option String
  deriving DecidableEq, Repr

/-- The persisted store: the two tables. -/
structure Store where
  categories : List DiagnosisCategory
  codes : List DiagnosisCode
  deriving DecidableEq, Repr

/-- A GET request to the code list endpoint: the query parameters read by
`diagnosis_code_list_create` (`views.py` lines 90-112). `none` means the
parameter is absent; `some s` that it is present with string value `s`.
`page` is the already-parsed 1-based page number (default 1), `page_size`
the already-parsed integer value of the `page_size` parameter (`none` for
absent or non-numeric, which DRF treats alike via `ValueError`). -/
structure ListRequest where
  icd_version : Option String
  include_inactive : Option String
  category : Option String
  search : Option String
  page : Nat
  page_size : Option Int
  deriving DecidableEq, Repr

/-- Lowercased character sequence of a string (lowercasing character by
character, as Python `str.lower` / SQL `LOWER` do on ASCII). -/
def lowerChars (s : String) : List Char :=
  s.data.map Char.toLower

/-- Case-insensitive substring test, modelling Django's `__icontains`:
the needle's lowercasing is an infix of the haystack's lowercasing. -/
def icontains (haystack needle : String) : Bool :=
  decide (lowerChars needle <:+: lowerChars haystack)

/-- Model of `views.py` lines 92-94: `icd_version` exact-match filter, applied only
when the parameter is present and truthy (a Python string is truthy iff
non-empty). -/
def filterVersion (req : ListRequest) (qs : List DiagnosisCode) :
    List DiagnosisCode :=
  match req.icd_version with
  | some v => if v ≠ "" then qs.filter (fun c => c.icd_version = v) else qs
  | none => qs

/-- Model of `views.py` lines 95-97: restrict to `is_active=True` unless
`include_inactive` (default `"false"`) lowercases to `"true"`. -/
def filterActive (req : ListRequest) (qs : List DiagnosisCode) :
    List DiagnosisCode :=
  if lowerChars (req.include_inactive.getD "false") ≠ "true".data then
    qs.filter (fun c => c.is_active)
  else qs

/-- Model of `views.py` lines 98-100: `category_id` exact-match filter, applied only
when the parameter is present and truthy. -/
def filterCategory (req : ListRequest) (qs : List DiagnosisCode) :
    List DiagnosisCode :=
  match req.category with
  | some k => if k ≠ "" then qs.filter (fun c => c.category = some k) else qs
  | none => qs

/-- Model of `views.py` lines 101-107: `search` OR-matched case-insensitively against
`full_code`, `abbreviated_description` and `full_description`, applied only
when the parameter is present and truthy. -/
def filterSearch (req : ListRequest) (qs : List DiagnosisCode) :
    List DiagnosisCode :=
  match req.search with
  | some t =>
      if t ≠ "" then
        qs.filter (fun c =>
          icontains c.full_code t || icontains c.abbreviated_description t ||
            icontains c.full_description t)
      else qs
  | none => qs

/-- The filter stage of `diagnosis_code_list_create` GET (`views.py`
lines 91-107): the four conditional filters applied in program order. -/
def filterCodes (store : Store) (req : ListRequest) : List DiagnosisCode :=
  filterSearch req (filterCategory req (filterActive req
    (filterVersion req store.codes)))

/-- The ordering relation of `order_by('icd_version', 'full_code')`:
lexicographic on the pair (`icd_version`, `full_code`), ascending, with
strings compared as their character sequences. -/
def codeLe (a b : DiagnosisCode) : Prop :=
  a.icd_version.data < b.icd_version.data ∨
    (a.icd_version.data = b.icd_version.data ∧
      a.full_code.data ≤ b.full_code.data)

instance : DecidableRel codeLe := fun a b => by
  unfold codeLe; infer_instance

instance : IsTotal DiagnosisCode codeLe where
  total a b := by
    unfold codeLe
    rcases lt_trichotomy a.icd_version.data b.icd_version.data with h | h | h
    · exact Or.inl (Or.inl h)
    · rcases le_total a.full_code.data b.full_code.data with h' | h'
      · exact Or.inl (Or.inr ⟨h, h'⟩)
      · exact Or.inr (Or.inr ⟨h.symm, h'⟩)
    · exact Or.inr (Or.inl h)

instance : IsTrans DiagnosisCode codeLe where
  trans a b c hab hbc := by
    unfold codeLe at *
    rcases hab with h1 | ⟨h1, h1'⟩
    · rcases hbc with h2 | ⟨h2, _⟩
      · exact Or.inl (h1.trans h2)
      · exact Or.inl (h2 ▸ h1)
    · rcases hbc with h2 | ⟨h2, h2'⟩
      · exact Or.inl (h1 ▸ h2)
      · exact Or.inr ⟨h1.trans h2, h1'.trans h2'⟩

/-- Model of `queryset.order_by('icd_version', 'full_code')` (`views.py` line 108):
sort the filtered list by the lexicographic key. -/
def orderCodes (xs : List DiagnosisCode) : List DiagnosisCode :=
  xs.insertionSort codeLe

/-- The fully filtered and ordered sequence the paginator slices. -/
def orderedFiltered (store : Store) (req : ListRequest) : List DiagnosisCode :=
  orderCodes (filterCodes store req)

/-- Model of `DiagnosisCodePagination.get_page_size` (DRF `PageNumberPagination` with
`page_size = 20`, `page_size_query_param = 'page_size'`, `max_page_size =
100`, `views.py` lines 72-78): absent or non-positive (`_positive_int` with
`strict=True` raises `ValueError`) falls back to 20; otherwise the value
clamped to the ceiling 100. -/
def getPageSize (ps : Option Int) : Nat :=
  match ps with
  | none => 20
  | some r => if r ≤ 0 then 20 else min r.toNat 100

/-- Django `Paginator.num_pages` with `allow_empty_first_page`: `⌈n/s⌉`,
but at least 1 (an empty sequence still has one empty first page). -/
def numPages (n s : Nat) : Nat :=
  max 1 ((n + s - 1) / s)

/-- The window of 1-based page `p` at page size `s`: standard offset slice. -/
def pageItems (xs : List DiagnosisCode) (s p : Nat) : List DiagnosisCode :=
  (xs.drop ((p - 1) * s)).take s

/-- Pagination failure, surfaced by DRF `paginate_queryset` as HTTP 404
(`InvalidPage` is re-raised as `NotFound`). -/
inductive PageError where
  | notFound
  deriving DecidableEq, Repr

/-- Model of `paginator.paginate_queryset(queryset, request)`: Django
`Paginator.page(p)` validates `1 ≤ p ≤ num_pages` and otherwise raises
`InvalidPage`, which DRF turns into a 404; a valid page yields its window. -/
def paginate (xs : List DiagnosisCode) (s p : Nat) :
    Except PageError (List DiagnosisCode) :=
  if 1 ≤ p ∧ p ≤ numPages xs.length s then .ok (pageItems xs s p)
  else .error .notFound

/-- The whole GET pipeline of `diagnosis_code_list_create`: filter, order,
then paginate with the requested page and (clamped) page size. -/
def codeListGet (store : Store) (req : ListRequest) :
    Except PageError (List DiagnosisCode) :=
  paginate (orderedFiltered store req) (getPageSize req.page_size) req.page

/-! ## Write-side: serializer validation, create, delete -/

/-- Errors surfaced by write operations: a field-keyed validation error
(HTTP 400, `serializer.errors`) or a not-found error (HTTP 404,
`get_object_or_404`). They are distinct constructors, hence structurally
distinguishable. -/
inductive WriteError where
  | validationError (field : String) (msg : String)
  | notFound
  deriving DecidableEq, Repr

/-- Model of `DiagnosisCodeSerializer.validate` (`serializers.py` lines 43-57).
`category` is the already-resolved referenced category (`data.get("category")`
is `None` when the key is absent or null; a model instance is always truthy);
`icd_version` is `data.get("icd_version")` (`None` when absent; a string is
truthy iff non-empty). The check fires only when both are truthy, and rejects
a mismatch with an error keyed to `"icd_version"`. -/
def serializerValidate (category : Option DiagnosisCategory)
    (icd_version : Option String) : Except WriteError Unit :=
  match category, icd_version with
  | some c, some v =>
      if v ≠ "" ∧ c.icd_version ≠ v then
        .error (.validationError "icd_version"
          "Category icd_version must match diagnosis code icd_version")
      else .ok ()
  | _, _ => .ok ()

/-- Outcome of a `DELETE /categories/{pk}/` (`views.py` lines 64-69):
404 when the pk does not resolve; otherwise `category.delete()`, which with
`on_delete=PROTECT` (`models.py` lines 33-39) raises `ProtectedError` when
any `DiagnosisCode` still references the category — caught and turned into
the 400 referential-constraint error — and deletes the row otherwise. -/
inductive DeleteError where
  | notFound
  | protectedError (msg : String)
  deriving DecidableEq, Repr

/-- Model of the `diagnosis_category_detail` DELETE branch. Returns the outcome together
with the resulting store; on any error the store is returned unchanged
(`PROTECT` rejects before modifying anything). -/
def deleteCategory (store : Store) (pk : String) :
    Except DeleteError Unit × Store :=
  match store.categories.find? (fun c => c.id = pk) with
  | none => (.error .notFound, store)
  | some _ =>
      if store.codes.any (fun dc => dc.category = some pk) then
        (.error (.protectedError
          "Cannot delete category with associated diagnosis codes"), store)
      else
        (.ok (), { store with
          categories := store.categories.filter (fun c => c.id ≠ pk) })

/-- The write payload of a `POST /codes/` as the serializer's input fields
(the fields needed by validation and insertion; timestamps are read-only). -/
structure CodePayload where
  category : Option String
  diagnosis_code : String
  full_code : String
  abbreviated_description : String
  full_description : String
  icd_version : String
  is_active : Bool
  valid_from : Option String
  valid_to : Option String
  deriving DecidableEq, Repr

/-- DRF `PrimaryKeyRelatedField.to_internal_value` for the nullable
`category` field: absent/null passes through; a supplied pk must resolve to
an existing category, else a field-keyed validation error. -/
def resolveCategory (store : Store) :
    Option String → Except WriteError (Option DiagnosisCategory)
  | none => .ok none
  | some cid =>
      match store.categories.find? (fun c => c.id = cid) with
      | some c => .ok (some c)
      | none => .error (.validationError "category"
          "Invalid pk - object does not exist")

/-- The row `serializer.save()` inserts for a validated payload: every
writable field taken from the payload, plus the fresh primary key. -/
def mkInsertedCode (p : CodePayload) (newId : String) : DiagnosisCode where
  id := newId
  category := p.category
  diagnosis_code := p.diagnosis_code
  full_code := p.full_code
  abbreviated_description := p.abbreviated_description
  full_description := p.full_description
  icd_version := p.icd_version
  is_active := p.is_active
  valid_from := p.valid_from
  valid_to := p.valid_to

/-- Model of `POST /codes/` (`views.py` lines 114-119): `serializer.is_valid()` runs,
in order, field resolution (the `category` pk), the `UniqueTogetherValidator`
generated from `unique_together = ("full_code", "icd_version")`
(`models.py` lines 59-67), then `DiagnosisCodeSerializer.validate`; on
success `serializer.save()` inserts the row (with a fresh pk `newId`).
Returns the outcome and the resulting store; an error leaves it unchanged. -/
def createCode (store : Store) (p : CodePayload) (newId : String) :
    Except WriteError Unit × Store :=
  match resolveCategory store p.category with
  | .error e => (.error e, store)
  | .ok catObj =>
      if store.codes.any (fun c =>
          c.full_code = p.full_code ∧ c.icd_version = p.icd_version) then
        (.error (.validationError "non_field_errors"
          "The fields full_code, icd_version must make a unique set."), store)
      else
        match serializerValidate catObj (some p.icd_version) with
        | .error e => (.error e, store)
        | .ok _ =>
            (.ok (), { store with
              codes := store.codes ++ [mkInsertedCode p newId] })

/-! ## Bulk CSV import (`management/commands/import_icd.py`) -/

/-- One row of `codes.csv` with all required columns present (a missing
column raises `KeyError` and aborts the run; that fatal path is outside the
per-row skip behaviour modelled here). -/
structure CodeRow where
  categoryCode : String
  diagnosisCode : String
  fullCode : String
  abbreviatedDescription : String
  fullDescription : String
  deriving DecidableEq, Repr

/-- Running state of the codes phase of `Command.handle` (`import_icd.py`
lines 116-174): the store, the `codes_count` / `codes_updated` counters, and
the warning lines written to stdout for skipped rows. -/
structure ImportState where
  store : Store
  codesCount : Nat
  codesUpdated : Nat
  warnings : List String
  deriving DecidableEq, Repr

/-- The per-row warning written when a row's category cannot be resolved. -/
def skipWarning (row : CodeRow) : String :=
  "Category not found for code " ++ row.fullCode ++ ": " ++ row.categoryCode

/-- One iteration of the codes loop: resolve the category by
`(code, icd_version)`; on `DoesNotExist` write a warning and `continue`
(nothing else changes); otherwise `update_or_create` keyed on
`(full_code, icd_version)`, bumping `codes_updated` or `codes_count`. -/
def importCodeRow (v : String) (st : ImportState) (row : CodeRow) :
    ImportState :=
  match st.store.categories.find? (fun c =>
      c.code = row.categoryCode ∧ c.icd_version = v) with
  | none => { st with warnings := st.warnings ++ [skipWarning row] }
  | some cat =>
      let updated : DiagnosisCode → DiagnosisCode := fun c =>
        if c.full_code = row.fullCode ∧ c.icd_version = v then
          { c with
            category := some cat.id
            diagnosis_code := row.diagnosisCode
            abbreviated_description := row.abbreviatedDescription
            full_description := row.fullDescription
            is_active := true }
        else c
      if st.store.codes.any (fun c =>
          c.full_code = row.fullCode ∧ c.icd_version = v) then
        { st with
          store := { st.store with codes := st.store.codes.map updated }
          codesUpdated := st.codesUpdated + 1 }
      else
        { st with
          store := { st.store with codes := st.store.codes ++ [{
            id := row.fullCode ++ "/" ++ v
            category := some cat.id
            diagnosis_code := row.diagnosisCode
            full_code := row.fullCode
            abbreviated_description := row.abbreviatedDescription
            full_description := row.fullDescription
            icd_version := v
            is_active := true
            valid_from := none
            valid_to := none }] }
          codesCount := st.codesCount + 1 }

/-- The codes-import loop: fold `importCodeRow` over the rows in order. -/
def runImportCodes (v : String) (st : ImportState) (rows : List CodeRow) :
    ImportState :=
  rows.foldl (importCodeRow v) st

/-- The final summary block written by `handle` (`import_icd.py` lines
176-186): it interpolates exactly `icd_version`, `categories_count`,
`categories_updated`, `codes_count` and `codes_updated`. -/
def summaryOutput (v : String) (categoriesCount categoriesUpdated : Nat)
    (st : ImportState) : String :=
  "Import completed for " ++ v ++ "\n" ++
    "Categories: " ++ toString categoriesCount ++ " new, " ++
      toString categoriesUpdated ++ " updated\n" ++
    "Codes: " ++ toString st.codesCount ++ " new, " ++
      toString st.codesUpdated ++ " updated\n"

/-- Rows skipped during the run = warning lines accumulated. -/
def skippedCount (st : ImportState) : Nat :=
  st.warnings.length

/-! ## Sample data used by witnesses and counterexamples -/

/-- A sample ICD-10 category. -/
def sCat : DiagnosisCategory :=
  ⟨"1", "A01", "Typhoid and paratyphoid fevers", "ICD-10"⟩

/-- A sample ICD-9 category. -/
def sCat9 : DiagnosisCategory :=
  ⟨"2", "001", "Cholera", "ICD-9"⟩

/-- An active ICD-10 code under `sCat`. -/
def sCodeA : DiagnosisCode :=
  ⟨"10", some "1", "0", "A010000", "Typhoid fever", "Typhoid fever, unspecified",
    "ICD-10", true, none, none⟩

/-- A second active ICD-10 code under `sCat`, sorting after `sCodeA`. -/
def sCodeB : DiagnosisCode :=
  ⟨"11", some "1", "1", "A011000", "Paratyphoid fever A", "Paratyphoid fever A",
    "ICD-10", true, none, none⟩

/-- An inactive ICD-10 code. -/
def sCodeInactive : DiagnosisCode :=
  ⟨"12", some "1", "9", "A019000", "Old typhoid entry", "Superseded entry",
    "ICD-10", false, none, none⟩

/-- An ICD-9 code sharing `full_code` with nothing above. -/
def sCode9 : DiagnosisCode :=
  ⟨"13", some "2", "0", "0010000", "Cholera", "Cholera due to vibrio cholerae",
    "ICD-9", true, none, none⟩

/-- A request with no query parameters (page defaults to 1). -/
def sReq : ListRequest :=
  ⟨none, none, none, none, 1, none⟩

/-! ## Helper lemmas -/

theorem getPageSize_pos (ps : Option Int) : 0 < getPageSize ps := by
  cases ps with
  | none => simp [getPageSize]
  | some r =>
    simp only [getPageSize]
    split <;> omega

theorem le_numPages_mul {n s : Nat} (hs : 0 < s) : n ≤ numPages n s * s := by
  unfold numPages
  rcases Nat.eq_zero_or_pos n with h | h
  · omega
  · have hq := Nat.div_add_mod (n + s - 1) s
    have hr := Nat.mod_lt (n + s - 1) hs
    have hmax : ((n + s - 1) / s) * s ≤ max 1 ((n + s - 1) / s) * s :=
      Nat.mul_le_mul_right s (le_max_right 1 ((n + s - 1) / s))
    refine le_trans ?_ hmax
    rw [Nat.mul_comm]
    generalize s * ((n + s - 1) / s) = t at hq
    omega

theorem flatten_pages (xs : List DiagnosisCode) (s : Nat) :
    ∀ m : Nat,
      ((List.range m).map (fun i => pageItems xs s (i + 1))).flatten
        = xs.take (m * s)
  | 0 => by simp
  | m + 1 => by
    rw [List.range_succ, List.map_append, List.flatten_append,
      flatten_pages xs s m]
    have hstep : pageItems xs s (m + 1) = (xs.drop (m * s)).take s := by
      simp [pageItems]
    simp only [List.map_cons, List.map_nil, List.flatten_cons,
      List.flatten_nil, List.append_nil, hstep]
    rw [Nat.succ_mul, List.take_add]

theorem paginate_ok (xs : List DiagnosisCode) (s p : Nat) (h1 : 1 ≤ p)
    (h2 : p ≤ numPages xs.length s) :
    paginate xs s p = .ok (pageItems xs s p) := by
  unfold paginate
  rw [if_pos ⟨h1, h2⟩]

/-! ## C8 — page size defaulting and clamping -/

/-- C8 as stated is false at the concrete requested value 0: 0 is at most
100, yet the effective page size is the default 20, not 0 (DRF's
`_positive_int(strict=True)` rejects 0 and falls back to `page_size`). -/
theorem c8_counterexample :
    ¬ (getPageSize (some 0) = 0) ∧ getPageSize (some 0) = 20 := by
  constructor
  · decide
  · decide

/-- C8 (amended): with no `page_size` parameter the effective page size is
20 and every returned page holds at most 20 items; requested values above
100 are clamped to exactly 100 (never rejected — `getPageSize` is total);
requested **positive** values of at most 100 are used as-is; non-positive
requested values fall back to the default 20. -/
theorem c8_page_size_clamped :
    getPageSize none = 20 ∧
    (∀ r : Int, 100 < r → getPageSize (some r) = 100) ∧
    (∀ r : Int, 1 ≤ r → r ≤ 100 → getPageSize (some r) = r.toNat) ∧
    (∀ r : Int, r ≤ 0 → getPageSize (some r) = 20) ∧
    (∀ (store : Store) (req : ListRequest) (res : List DiagnosisCode),
      req.page_size = none → codeListGet store req = .ok res →
        res.length ≤ 20) := by
  refine ⟨rfl, ?_, ?_, ?_, ?_⟩
  · intro r hr
    simp only [getPageSize]
    rw [if_neg (by omega)]
    omega
  · intro r h1 h2
    simp only [getPageSize]
    rw [if_neg (by omega)]
    omega
  · intro r hr
    simp only [getPageSize]
    rw [if_pos hr]
  · intro store req res hps hok
    unfold codeListGet paginate at hok
    rw [hps] at hok
    split at hok
    · injection hok with hres
      subst hres
      calc (pageItems (orderedFiltered store req) (getPageSize none)
              req.page).length
          ≤ getPageSize none := List.length_take_le ..
        _ = 20 := rfl
    · exact absurd hok (by simp)

/-- Witness for C8: discharging the hypotheses at the requested values 200,
55 and -3, and at a concrete one-code store with no `page_size` parameter. -/
theorem c8_page_size_clamped_witness :
    getPageSize (some 200) = 100 ∧ getPageSize (some 55) = 55 ∧
      getPageSize (some (-3)) = 20 ∧
      ([sCodeA] : List DiagnosisCode).length ≤ 20 :=
  ⟨c8_page_size_clamped.2.1 200 (by decide),
   c8_page_size_clamped.2.2.1 55 (by decide) (by decide),
   c8_page_size_clamped.2.2.2.1 (-3) (by decide),
   c8_page_size_clamped.2.2.2.2 ⟨[sCat], [sCodeA]⟩ sReq [sCodeA] rfl
     (by decide)⟩

/-! ## C7 — page beyond the last yields not-found -/

/-- C7: requesting a page strictly beyond the number of pages of the
filtered sequence (at least one page exists even when the sequence is
empty, so for an empty result set this means any page ≥ 2) fails with the
page-not-found error, not an empty success. -/
theorem c7_page_out_of_range (store : Store) (req : ListRequest)
    (h : numPages (orderedFiltered store req).length
        (getPageSize req.page_size) < req.page) :
    codeListGet store req = .error .notFound := by
  unfold codeListGet paginate
  rw [if_neg]
  intro hcon
  omega

/-- Witness for C7: the empty store with no filters and `page = 2` (the
empty-sequence, page ≥ 2 case the claim singles out). -/
theorem c7_page_out_of_range_witness :
    codeListGet ⟨[], []⟩ { sReq with page := 2 } = .error .notFound :=
  c7_page_out_of_range ⟨[], []⟩ { sReq with page := 2 } (by decide)

/-! ## C2 — concatenating all pages reproduces the filtered sequence -/

/-- C2: for a fixed filter set and page size, concatenating the item
windows of pages 1 through the last page equals the full filtered, ordered
sequence — no gaps, no duplicates. -/
theorem c2_pagination_partition (store : Store) (req : ListRequest) :
    ((List.range (numPages (orderedFiltered store req).length
          (getPageSize req.page_size))).map
        (fun i =>
          ((codeListGet store { req with page := i + 1 }).toOption.getD []))).flatten
      = orderedFiltered store req := by
  have hs := getPageSize_pos req.page_size
  have hmap : ∀ i ∈ List.range (numPages (orderedFiltered store req).length
      (getPageSize req.page_size)),
      ((codeListGet store { req with page := i + 1 }).toOption.getD [])
        = pageItems (orderedFiltered store req) (getPageSize req.page_size)
            (i + 1) := by
    intro i hi
    rw [List.mem_range] at hi
    have hok : codeListGet store { req with page := i + 1 }
        = .ok (pageItems (orderedFiltered store req)
            (getPageSize req.page_size) (i + 1)) := by
      unfold codeListGet
      exact paginate_ok _ _ _ (Nat.succ_le_succ (Nat.zero_le i)) hi
    rw [hok]
    rfl
  rw [List.map_congr_left hmap, flatten_pages]
  exact List.take_of_length_le (le_numPages_mul hs)

/-! ## More helper lemmas: shape of a successful page, filter membership -/

theorem codeListGet_ok_eq {store : Store} {req : ListRequest}
    {res : List DiagnosisCode} (h : codeListGet store req = .ok res) :
    res = pageItems (orderedFiltered store req) (getPageSize req.page_size)
      req.page := by
  unfold codeListGet paginate at h
  split at h
  · injection h with h
    exact h.symm
  · exact absurd h (by simp)

theorem mem_filterVersion {req : ListRequest} {qs : List DiagnosisCode}
    {c : DiagnosisCode} (h : c ∈ filterVersion req qs) :
    c ∈ qs ∧ ∀ v, req.icd_version = some v → v ≠ "" → c.icd_version = v := by
  unfold filterVersion at h
  split at h
  · rename_i v0 heq
    split at h
    · rename_i hne
      rw [List.mem_filter] at h
      refine ⟨h.1, ?_⟩
      intro v hv' _
      rw [heq] at hv'
      injection hv' with h2
      subst h2
      exact of_decide_eq_true h.2
    · rename_i hne
      refine ⟨h, ?_⟩
      intro v hv' hveq
      rw [heq] at hv'
      injection hv' with h2
      subst h2
      exact absurd (not_not.mp hne) hveq
  · rename_i heq
    refine ⟨h, ?_⟩
    intro v hv'
    rw [heq] at hv'
    simp at hv'

theorem mem_filterActive {req : ListRequest} {qs : List DiagnosisCode}
    {c : DiagnosisCode} (h : c ∈ filterActive req qs) :
    c ∈ qs ∧ (lowerChars (req.include_inactive.getD "false") ≠ "true".data →
      c.is_active = true) := by
  unfold filterActive at h
  by_cases hc : lowerChars (req.include_inactive.getD "false") ≠ "true".data
  · rw [if_pos hc, List.mem_filter] at h
    exact ⟨h.1, fun _ => h.2⟩
  · rw [if_neg hc] at h
    exact ⟨h, fun hcon => absurd hcon hc⟩

theorem mem_filterCategory {req : ListRequest} {qs : List DiagnosisCode}
    {c : DiagnosisCode} (h : c ∈ filterCategory req qs) :
    c ∈ qs ∧ ∀ k, req.category = some k → k ≠ "" → c.category = some k := by
  unfold filterCategory at h
  split at h
  · rename_i k0 heq
    split at h
    · rw [List.mem_filter] at h
      refine ⟨h.1, ?_⟩
      intro k hv' _
      rw [heq] at hv'
      injection hv' with h2
      subst h2
      exact of_decide_eq_true h.2
    · rename_i hne
      refine ⟨h, ?_⟩
      intro k hv' hkeq
      rw [heq] at hv'
      injection hv' with h2
      subst h2
      exact absurd (not_not.mp hne) hkeq
  · rename_i heq
    refine ⟨h, ?_⟩
    intro k hv'
    rw [heq] at hv'
    simp at hv'

theorem mem_filterSearch {req : ListRequest} {qs : List DiagnosisCode}
    {c : DiagnosisCode} (h : c ∈ filterSearch req qs) :
    c ∈ qs ∧ ∀ t, req.search = some t → t ≠ "" →
      (icontains c.full_code t || icontains c.abbreviated_description t ||
        icontains c.full_description t) = true := by
  unfold filterSearch at h
  split at h
  · rename_i t0 heq
    split at h
    · rw [List.mem_filter] at h
      refine ⟨h.1, ?_⟩
      intro t hv' _
      rw [heq] at hv'
      injection hv' with h2
      subst h2
      exact h.2
    · rename_i hne
      refine ⟨h, ?_⟩
      intro t hv' hteq
      rw [heq] at hv'
      injection hv' with h2
      subst h2
      exact absurd (not_not.mp hne) hteq
  · rename_i heq
    refine ⟨h, ?_⟩
    intro t hv'
    rw [heq] at hv'
    simp at hv'

theorem mem_filtered_of_ok {store : Store} {req : ListRequest}
    {res : List DiagnosisCode} {c : DiagnosisCode}
    (hok : codeListGet store req = .ok res) (hc : c ∈ res) :
    c ∈ filterCodes store req := by
  rw [codeListGet_ok_eq hok] at hc
  have hsub : List.Sublist
      (pageItems (orderedFiltered store req) (getPageSize req.page_size)
        req.page)
      (orderedFiltered store req) :=
    List.Sublist.trans (List.take_sublist ..) (List.drop_sublist ..)
  have h1 : c ∈ orderedFiltered store req := hsub.subset hc
  exact (List.perm_insertionSort codeLe (filterCodes store req)).mem_iff.mp h1

/-! ## C6 — results sorted by (version, full_code) ascending -/

/-- C6: for every request, any successful result page is pairwise sorted by
the lexicographic key (`icd_version`, `full_code`) ascending; the result
holds for all requests, so no caller-supplied parameter overrides it. -/
theorem c6_sort_order (store : Store) (req : ListRequest)
    (res : List DiagnosisCode) (h : codeListGet store req = .ok res) :
    res.Pairwise codeLe := by
  rw [codeListGet_ok_eq h]
  have hsorted : (orderedFiltered store req).Pairwise codeLe :=
    List.sorted_insertionSort codeLe (filterCodes store req)
  exact hsorted.sublist
    (List.Sublist.trans (List.take_sublist ..) (List.drop_sublist ..))

/-- Witness for C6: a store listing the two ICD-10 codes out of order comes
back sorted. -/
theorem c6_sort_order_witness :
    ([sCodeA, sCodeB] : List DiagnosisCode).Pairwise codeLe :=
  c6_sort_order ⟨[sCat], [sCodeB, sCodeA]⟩ sReq [sCodeA, sCodeB] (by decide)

/-! ## C1 — every returned code satisfies all supplied filters -/

/-- C1 as stated is false at a concrete input: the code compares
`include_inactive` case-insensitively (`include_inactive.lower() != 'true'`),
so a request with `include_inactive=TRUE` — which is not the string
`"true"` — still lifts the active-only restriction and returns an inactive
code. -/
theorem c1_counterexample :
    codeListGet ⟨[sCat], [sCodeInactive]⟩
        { sReq with include_inactive := some "TRUE" }
      = .ok [sCodeInactive] ∧
    sCodeInactive.is_active = false ∧
    ({ sReq with include_inactive := some "TRUE" } :
        ListRequest).include_inactive ≠ some "true" := by
  refine ⟨by decide, rfl, by decide⟩

/-- C1 (amended): every code in a successful result page satisfies all
supplied non-empty filters: version equality, active unless
`include_inactive` **case-insensitively** equals `"true"`, category-id
equality, and case-insensitive search-substring membership in at least one
of `full_code`, `abbreviated_description`, `full_description`. -/
theorem c1_filters_sound (store : Store) (req : ListRequest)
    (res : List DiagnosisCode) (c : DiagnosisCode)
    (hok : codeListGet store req = .ok res) (hc : c ∈ res) :
    (∀ v, req.icd_version = some v → v ≠ "" → c.icd_version = v) ∧
    (lowerChars (req.include_inactive.getD "false") ≠ "true".data →
      c.is_active = true) ∧
    (∀ k, req.category = some k → k ≠ "" → c.category = some k) ∧
    (∀ t, req.search = some t → t ≠ "" →
      (icontains c.full_code t || icontains c.abbreviated_description t ||
        icontains c.full_description t) = true) := by
  have hf : c ∈ filterCodes store req := mem_filtered_of_ok hok hc
  unfold filterCodes at hf
  obtain ⟨hf, hsearch⟩ := mem_filterSearch hf
  obtain ⟨hf, hcat⟩ := mem_filterCategory hf
  obtain ⟨hf, hact⟩ := mem_filterActive hf
  obtain ⟨_, hver⟩ := mem_filterVersion hf
  exact ⟨hver, hact, hcat, hsearch⟩

/-- The store and request used by the C1 witness: all four filters supplied
and effective. -/
def c1wStore : Store :=
  ⟨[sCat, sCat9], [sCode9, sCodeInactive, sCodeB, sCodeA]⟩

/-- The C1 witness request: version, category and search filters supplied,
`include_inactive` left at its default. -/
def c1wReq : ListRequest :=
  ⟨some "ICD-10", none, some "1", some "tYpHoId FeVeR", 1, none⟩

/-- Witness for C1: at `c1wStore`/`c1wReq` the result page is `[sCodeA]`
and the returned code satisfies all four filter obligations. -/
theorem c1_filters_sound_witness :
    codeListGet c1wStore c1wReq = .ok [sCodeA, sCodeB] ∧
      sCodeA ∈ [sCodeA, sCodeB] ∧
      ((∀ v, c1wReq.icd_version = some v → v ≠ "" → sCodeA.icd_version = v) ∧
       (lowerChars (c1wReq.include_inactive.getD "false") ≠ "true".data →
         sCodeA.is_active = true) ∧
       (∀ k, c1wReq.category = some k → k ≠ "" → sCodeA.category = some k) ∧
       (∀ t, c1wReq.search = some t → t ≠ "" →
         (icontains sCodeA.full_code t ||
           icontains sCodeA.abbreviated_description t ||
           icontains sCodeA.full_description t) = true)) :=
  ⟨by decide, by decide,
    c1_filters_sound c1wStore c1wReq [sCodeA, sCodeB] sCodeA (by decide)
      (by decide)⟩

/-! ## C10 — empty-string filter values are treated as absent -/

/-- C10: an empty-string `icd_version`, `category` or `search` parameter is
treated exactly as if the parameter were absent (Python string truthiness
guards every filter), rather than matching only records with an empty
field. -/
theorem c10_empty_filter_ignored (store : Store) (req : ListRequest) :
    codeListGet store { req with icd_version := some "" }
        = codeListGet store { req with icd_version := none } ∧
    codeListGet store { req with category := some "" }
        = codeListGet store { req with category := none } ∧
    codeListGet store { req with search := some "" }
        = codeListGet store { req with search := none } :=
  ⟨rfl, rfl, rfl⟩

/-! ## C3 — category/version cross-field validation -/

/-- C3: when both a resolved category and a non-empty `icd_version` are
supplied in the write payload and their versions differ, validation fails
with an error keyed to `icd_version` — a constructor distinct from the
not-found error — and when either field is absent the cross-field check
does not fire. -/
theorem c3_cross_field_validation (cat : DiagnosisCategory) (v : String)
    (hv : v ≠ "") (hm : cat.icd_version ≠ v) :
    serializerValidate (some cat) (some v)
        = .error (.validationError "icd_version"
            "Category icd_version must match diagnosis code icd_version") ∧
    (WriteError.validationError "icd_version"
        "Category icd_version must match diagnosis code icd_version"
      ≠ .notFound) ∧
    (∀ oc : Option DiagnosisCategory, serializerValidate oc none = .ok ()) ∧
    (∀ ov : Option String, serializerValidate none ov = .ok ()) := by
  refine ⟨?_, by simp, ?_, ?_⟩
  · have hstep : serializerValidate (some cat) (some v)
        = if v ≠ "" ∧ cat.icd_version ≠ v then
            .error (.validationError "icd_version"
              "Category icd_version must match diagnosis code icd_version")
          else .ok () := rfl
    rw [hstep, if_pos ⟨hv, hm⟩]
  · intro oc
    cases oc <;> rfl
  · intro ov
    cases ov <;> rfl

/-- Witness for C3: the ICD-9 category against payload version `"ICD-10"`
(the spec's own example scenario). -/
theorem c3_cross_field_validation_witness :
    ("ICD-10" : String) ≠ "" ∧ sCat9.icd_version ≠ "ICD-10" ∧
    serializerValidate (some sCat9) (some "ICD-10")
      = .error (.validationError "icd_version"
          "Category icd_version must match diagnosis code icd_version") :=
  ⟨by decide, by decide,
    (c3_cross_field_validation sCat9 "ICD-10" (by decide) (by decide)).1⟩

/-! ## C4 — delete protection on referenced categories -/

/-- C4: deleting an existing category referenced by at least one code fails
with the structured referential-constraint error and leaves the store
(category and codes alike) unchanged; deleting an existing category with no
referencing codes succeeds, removing exactly that category and touching no
codes. -/
theorem c4_delete_protect (store : Store) (pk : String)
    (hex : ∃ cat ∈ store.categories, cat.id = pk) :
    ((∃ dc ∈ store.codes, dc.category = some pk) →
      deleteCategory store pk
        = (.error (.protectedError
            "Cannot delete category with associated diagnosis codes"),
           store)) ∧
    ((∀ dc ∈ store.codes, dc.category ≠ some pk) →
      deleteCategory store pk
        = (.ok (), { store with
            categories := store.categories.filter (fun c => c.id ≠ pk) })) := by
  obtain ⟨cat, hmem, hid⟩ := hex
  have hfind : (store.categories.find? (fun c => c.id = pk)).isSome :=
    List.find?_isSome.mpr ⟨cat, hmem, by simp [hid]⟩
  obtain ⟨c', hc'⟩ := Option.isSome_iff_exists.mp hfind
  constructor
  · intro ⟨dc, hdc, hdccat⟩
    have hany : store.codes.any (fun dc => dc.category = some pk) = true :=
      List.any_eq_true.mpr ⟨dc, hdc, by simp [hdccat]⟩
    simp only [deleteCategory, hc', hany, if_true]
  · intro hnone
    have hany : store.codes.any (fun dc => dc.category = some pk) = false :=
      List.any_eq_false.mpr (fun dc hdc => by simpa using hnone dc hdc)
    simp only [deleteCategory, hc', hany, Bool.false_eq_true, if_false]

/-- Witness for C4: deleting `sCat` (pk `"1"`) fails while `sCodeA`
references it and the store is unchanged; deleting it from a store where
the only code references someone else succeeds. -/
theorem c4_delete_protect_witness :
    (∃ cat ∈ ([sCat] : List DiagnosisCategory), cat.id = "1") ∧
    deleteCategory ⟨[sCat], [sCodeA]⟩ "1"
      = (.error (.protectedError
          "Cannot delete category with associated diagnosis codes"),
         ⟨[sCat], [sCodeA]⟩) ∧
    deleteCategory ⟨[sCat], [sCode9]⟩ "1" = (.ok (), ⟨[], [sCode9]⟩) :=
  ⟨⟨sCat, by simp, rfl⟩,
   (c4_delete_protect ⟨[sCat], [sCodeA]⟩ "1" ⟨sCat, by simp, rfl⟩).1
     ⟨sCodeA, by simp, rfl⟩,
   (c4_delete_protect ⟨[sCat], [sCode9]⟩ "1" ⟨sCat, by simp, rfl⟩).2
     (by decide)⟩

/-! ## C5 — (full_code, icd_version) uniqueness at write time -/

theorem resolveCategory_error {store : Store} {oc : Option String}
    {e : WriteError} (h : resolveCategory store oc = .error e) :
    ∃ m, e = .validationError "category" m := by
  cases oc with
  | none => simp [resolveCategory] at h
  | some cid =>
    simp only [resolveCategory] at h
    split at h
    · simp at h
    · injection h with h
      exact ⟨_, h.symm⟩

/-- C5: creating a code whose `(full_code, icd_version)` pair collides with
an existing record fails with a structured field-keyed validation error and
leaves the store unchanged (whatever the category field holds); creating a
code with no colliding pair (in particular, the same `full_code` under a
different version) succeeds and appends exactly one record. -/
theorem c5_unique_together (store : Store) (p : CodePayload)
    (newId : String) :
    ((∃ c ∈ store.codes,
        c.full_code = p.full_code ∧ c.icd_version = p.icd_version) →
      ∃ f m, createCode store p newId = (.error (.validationError f m),
        store)) ∧
    (p.category = none →
      (∀ c ∈ store.codes,
        ¬(c.full_code = p.full_code ∧ c.icd_version = p.icd_version)) →
      ∃ nc, createCode store p newId
          = (.ok (), { store with codes := store.codes ++ [nc] }) ∧
        nc.full_code = p.full_code ∧ nc.icd_version = p.icd_version) := by
  constructor
  · intro ⟨c0, hc0, hfc, hvc⟩
    cases hres : resolveCategory store p.category with
    | error e =>
      obtain ⟨m, he⟩ := resolveCategory_error hres
      refine ⟨"category", m, ?_⟩
      simp only [createCode, hres, he]
    | ok catObj =>
      refine ⟨"non_field_errors",
        "The fields full_code, icd_version must make a unique set.", ?_⟩
      have hany : store.codes.any (fun c =>
          c.full_code = p.full_code ∧ c.icd_version = p.icd_version)
            = true :=
        List.any_eq_true.mpr ⟨c0, hc0, by simp [hfc, hvc]⟩
      simp only [createCode, hres, hany, if_true]
  · intro hcat hnone
    refine ⟨mkInsertedCode p newId, ?_, rfl, rfl⟩
    have hres : resolveCategory store p.category = .ok none := by
      rw [hcat]
      rfl
    have hany : store.codes.any (fun c =>
        c.full_code = p.full_code ∧ c.icd_version = p.icd_version)
          = false :=
      List.any_eq_false.mpr (fun c hc => by simpa using hnone c hc)
    simp only [createCode, hres, hany, Bool.false_eq_true, if_false]
    rfl

/-- The payload the C5 witness inserts: `full_code` `"0010000"` (already
present under ICD-9 via `sCode9`) under version ICD-10. -/
def c5Payload : CodePayload :=
  ⟨none, "0", "0010000", "Cholera", "Cholera entry", "ICD-10", true,
    none, none⟩

/-- Witness for C5: against a store holding `sCode9` (`("0010000",
"ICD-9")`), inserting `("0010000", "ICD-9")` again fails with a validation
error and an unchanged store, while inserting `("0010000", "ICD-10")`
succeeds. -/
theorem c5_unique_together_witness :
    (∃ c ∈ ([sCode9] : List DiagnosisCode),
      c.full_code = "0010000" ∧ c.icd_version = "ICD-9") ∧
    (∃ f m, createCode ⟨[], [sCode9]⟩
        { c5Payload with icd_version := "ICD-9" } "20"
      = (.error (.validationError f m), ⟨[], [sCode9]⟩)) ∧
    (∃ nc, createCode ⟨[], [sCode9]⟩ c5Payload "20"
        = (.ok (), { (Store.mk [] [sCode9]) with
            codes := [sCode9] ++ [nc] }) ∧
      nc.full_code = "0010000" ∧ nc.icd_version = "ICD-10") :=
  ⟨⟨sCode9, by simp, by decide⟩,
   (c5_unique_together ⟨[], [sCode9]⟩
      { c5Payload with icd_version := "ICD-9" } "20").1
     ⟨sCode9, by simp, by decide⟩,
   (c5_unique_together ⟨[], [sCode9]⟩ c5Payload "20").2 rfl (by decide)⟩

/-! ## C9 — unresolvable-category rows during import -/

/-- The import state the C9 statements start from: the store holds only the
ICD-10 category `sCat`, no codes, zero counters. -/
def impStart : ImportState :=
  ⟨⟨[sCat], []⟩, 0, 0, []⟩

/-- A code row whose category `"A01"` resolves in `impStart`. -/
def impRowGood : CodeRow :=
  ⟨"A01", "0", "A010000", "Typhoid fever", "Typhoid fever, unspecified"⟩

/-- A code row whose category `"ZZZ"` resolves to nothing. -/
def impRowBad : CodeRow :=
  ⟨"ZZZ", "1", "Z999999", "Unknown", "Unknown"⟩

/-- C9 as stated is false: two runs that differ only in one skipped row —
and hence in their skipped-row counts, 0 versus 1 — produce identical final
summary output, so the summary cannot be reporting the count of skipped
rows (it interpolates only the new/updated counters). -/
theorem c9_counterexample :
    skippedCount (runImportCodes "ICD-10" impStart [impRowGood]) = 0 ∧
    skippedCount (runImportCodes "ICD-10" impStart
      [impRowGood, impRowBad]) = 1 ∧
    summaryOutput "ICD-10" 1 0 (runImportCodes "ICD-10" impStart
        [impRowGood])
      = summaryOutput "ICD-10" 1 0 (runImportCodes "ICD-10" impStart
          [impRowGood, impRowBad]) := by
  refine ⟨by decide, by decide, by decide⟩

/-- C9 (amended): a code row whose category cannot be resolved is skipped
non-fatally — the store and both counters are untouched, one warning line is
emitted for the row, and the run continues with the remaining rows — but
the number of skipped rows appears only as those per-row warning lines, not
in the final summary, which is unchanged by a skip. -/
theorem c9_skip_nonfatal (v : String) (st : ImportState) (row : CodeRow)
    (rows : List CodeRow) (cc cu : Nat)
    (h : st.store.categories.find? (fun c =>
        c.code = row.categoryCode ∧ c.icd_version = v) = none) :
    importCodeRow v st row
        = { st with warnings := st.warnings ++ [skipWarning row] } ∧
    runImportCodes v st (row :: rows)
        = runImportCodes v
            { st with warnings := st.warnings ++ [skipWarning row] } rows ∧
    summaryOutput v cc cu (importCodeRow v st row)
        = summaryOutput v cc cu st := by
  have h1 : importCodeRow v st row
      = { st with warnings := st.warnings ++ [skipWarning row] } := by
    unfold importCodeRow
    rw [h]
  refine ⟨h1, ?_, ?_⟩
  · unfold runImportCodes
    rw [List.foldl_cons, h1]
  · rw [h1]
    rfl

/-- Witness for C9 (amended): the unresolvable row `impRowBad` against
`impStart` is skipped with exactly its warning line appended. -/
theorem c9_skip_nonfatal_witness :
    (impStart.store.categories.find? (fun c =>
        c.code = impRowBad.categoryCode ∧ c.icd_version = "ICD-10")
      = none) ∧
    importCodeRow "ICD-10" impStart impRowBad
      = { impStart with
          warnings := impStart.warnings ++ [skipWarning impRowBad] } :=
  ⟨by decide,
   (c9_skip_nonfatal "ICD-10" impStart impRowBad [] 0 0 (by decide)).1⟩

end ICD
